import Mathlib

/-!
# Verification of the Comp696 data-aggregation and lead-scoring pipeline

Shallow embedding of `backend/app/services/data_collector.py`,
`cache_service.py`, `enrichers/clearbit_service.py`,
`enrichers/hunter_service.py` and `scrapers/linkedin_scraper.py`.

Conventions used throughout:
* Python dict slots that hold an optional string/int are modelled as
  `Option String` / `Option Int`; Python truthiness (`if x:`) on such a slot
  is `truthyS` / `truthyI` (None, `""` and `0` are falsy).
* Where the difference between "key absent" and "key present but bound to
  `None`" is observable (the contact dicts fed to `_deduplicate_contacts`,
  where `.get("email", "")` returns the default only for an absent key and
  `.lower()` on a present `None` raises), a slot is `Option (Option String)`:
  `none` = key absent, `some none` = key bound to `None`,
  `some (some s)` = key bound to the string `s`.
* Fallible Python code is `Except String _`; an uncaught `AttributeError`
  becomes `.error msg`.
* `float` scores are modelled in `ℚ`; every arithmetic step taken by
  `calculate_lead_score` on the inputs appearing in the theorems below is
  exact in IEEE double precision (sums of 0, 5, 10, 15, 20, 30), so the
  rational model agrees with the Python float result there.
* Network and cache traffic is made observable through an explicit
  `Effect` trace returned alongside each result.
-/

/-- Python truthiness of an optional-string dict slot:
`None` and `""` are falsy, any other string is truthy. -/
def truthyS (v : Option String) : Bool :=
  match v with
  | none => false
  | some s => s ≠ ""

/-- Python truthiness of an optional-int dict slot:
`None` and `0` are falsy. -/
def truthyI (v : Option Int) : Bool :=
  match v with
  | none => false
  | some n => n ≠ 0

/-- Python `a or b` on optional strings (returns `b` when `a` is falsy). -/
def orS (a b : Option String) : Option String :=
  if truthyS a then a else b

/-- Python `a or b` on optional ints. -/
def orI (a b : Option Int) : Option Int :=
  if truthyI a then a else b

/-- Python `min(a, b)` on two floats, modelled on `ℚ`
(returns the first argument on ties, as Python does). -/
def pymin (a b : ℚ) : ℚ :=
  if a ≤ b then a else b

/-- Python `s.lower()` (ASCII case folding, matching every string this
code base manipulates), computed on the character list so that it reduces
definitionally. -/
def pyLowerStr (s : String) : String :=
  String.mk (s.data.map Char.toLower)

/-- Python `s.strip()`: remove leading and trailing whitespace. -/
def pyStrip (s : String) : String :=
  String.mk (((s.data.dropWhile Char.isWhitespace).reverse.dropWhile
    Char.isWhitespace).reverse)

/-- Left-to-right, non-overlapping replacement of `pat` by `rep`, the
semantics of Python `s.replace(pat, rep)` for a non-empty `pat`; the fuel
argument (instantiated with the list length) only makes the recursion
structural. -/
def replaceAux : Nat → List Char → List Char → List Char → List Char
  | 0, l, _, _ => l
  | _ + 1, [], _, _ => []
  | fuel + 1, c :: rest, pat, rep =>
    if pat.isPrefixOf (c :: rest) then
      rep ++ replaceAux fuel ((c :: rest).drop pat.length) pat rep
    else
      c :: replaceAux fuel rest pat rep

/-- Python `s.replace(pat, rep)` (for the non-empty patterns used by the
code). -/
def pyReplace (s pat rep : String) : String :=
  String.mk (replaceAux s.data.length s.data pat.data rep.data)

/-- Python `s[0]` as a one-character string (only used under a guard that
`s` is non-empty). -/
def pyFirstChar (s : String) : String :=
  String.mk (s.data.take 1)

/-- The `aggregated_data` dictionary built by
`DataCollector.collect_company_data` and consumed by
`_merge_company_data` and `calculate_lead_score`.  Its keys are exactly the
keys written by `ClearbitService.extract_company_info` plus the
`email_pattern` / `total_emails_found` keys written from Hunter data and the
`linkedin_url` / `sources_used` keys written by the merge.  The nested
`funding` sub-dict `{total, annual_revenue}` is flattened into
`funding_total` / `funding_annual_revenue`. -/
structure AggRecord where
  name : Option String := none
  domain : Option String := none
  description : Option String := none
  industry : Option String := none
  sector : Option String := none
  employee_count : Option Int := none
  employee_range : Option String := none
  founded_year : Option Int := none
  location : Option String := none
  city : Option String := none
  state : Option String := none
  country : Option String := none
  logo_url : Option String := none
  website : Option String := none
  linkedin_url : Option String := none
  twitter_handle : Option String := none
  facebook_handle : Option String := none
  tech_stack : List String := []
  tags : List String := []
  type : Option String := none
  phone : Option String := none
  email_provider : Option Bool := none
  funding_total : Option Int := none
  funding_annual_revenue : Option Int := none
  email_pattern : Option String := none
  total_emails_found : Option Int := none
  sources_used : List String := []
deriving DecidableEq, Repr

/-- The fully-empty aggregated record (`{}` in Python; every `.get`
returns its default). -/
def emptyAggRecord : AggRecord := {}

namespace DataCollector

/-- Completeness component of `calculate_lead_score` (max 30):
`(complete_fields / len(required_fields)) * 30` over
`["name", "domain", "industry", "employee_count", "description"]`,
each counted when truthy. -/
def completenessScore (d : AggRecord) : ℚ :=
  let complete_fields : ℕ :=
    (if truthyS d.name then 1 else 0) +
    (if truthyS d.domain then 1 else 0) +
    (if truthyS d.industry then 1 else 0) +
    (if truthyI d.employee_count then 1 else 0) +
    (if truthyS d.description then 1 else 0)
  (complete_fields : ℚ) / 5 * 30

/-- Company-size component of `calculate_lead_score` (max 20).  The whole
block is guarded by `if employee_count:` — a falsy (`None` or `0`)
`employee_count` contributes nothing. -/
def sizeFitScore (d : AggRecord) : ℚ :=
  match d.employee_count with
  | none => 0
  | some n =>
    if n ≠ 0 then
      if 50 ≤ n ∧ n ≤ 500 then 20
      else if 500 ≤ n ∧ n ≤ 1000 then 15
      else if n < 50 then 10
      else 5
    else 0

/-- Funding/revenue component (max 20): `funding.get("total")` truthy → 20,
else `funding.get("annual_revenue")` truthy → 15, else 0. -/
def fundingScore (d : AggRecord) : ℚ :=
  if truthyI d.funding_total then 20
  else if truthyI d.funding_annual_revenue then 15
  else 0

/-- Technology component (max 15): `min(len(tech_stack) * 3, 15)` when the
stack is non-empty. -/
def techScore (d : AggRecord) : ℚ :=
  if d.tech_stack.length > 0 then
    pymin ((d.tech_stack.length : ℚ) * 3) 15
  else 0

/-- Contact-availability component (max 15): +10 for a truthy
`email_pattern`, +5 when `total_emails_found` (defaulting to 0) is > 0. -/
def contactScore (d : AggRecord) : ℚ :=
  (if truthyS d.email_pattern then 10 else 0) +
  (if d.total_emails_found.getD 0 > 0 then 5 else 0)

/-- `DataCollector.calculate_lead_score`: the running `score += ...`
accumulation, final `min(score, 100.0)`. -/
def calculate_lead_score (d : AggRecord) : ℚ :=
  pymin (completenessScore d + sizeFitScore d + fundingScore d +
       techScore d + contactScore d) 100

end DataCollector

/-- One entry of the `"emails"` list inside a Hunter.io domain-search
response, as read by `HunterService.get_contacts` (each slot accessed with
`.get(key)`, so an absent key and a `None` value are indistinguishable and
both modelled as `none`). -/
structure EmailEntry where
  value : Option String := none
  first_name : Option String := none
  last_name : Option String := none
  position : Option String := none
  department : Option String := none
  seniority : Option String := none
  confidence : Option Int := none
  linkedin : Option String := none
  twitter : Option String := none
  phone_number : Option String := none
deriving DecidableEq, Repr

/-- The `data` dictionary of a Hunter.io domain-search response, as read by
`domain_search` / `get_email_pattern` / `get_contacts` and by
`collect_company_data` (`data.get("pattern")`, `"emails" in data`,
`data.get("total", 0)`).  `emails = some l` means the `"emails"` key is
present and bound to the list `l`. -/
structure HunterData where
  pattern : Option String := none
  emails : Option (List EmailEntry) := none
  total : Option Int := none
deriving DecidableEq, Repr

/-- Raw Clearbit company payload: exactly the keys read by
`ClearbitService.extract_company_info`, with the nested
`category` / `metrics` / `geo` / `linkedin` / `twitter` / `facebook`
sub-dicts flattened into their accessed leaves. -/
structure ClearbitData where
  name : Option String := none
  domain : Option String := none
  description : Option String := none
  category_industry : Option String := none
  category_sector : Option String := none
  metrics_employees : Option Int := none
  metrics_employeesRange : Option String := none
  foundedYear : Option Int := none
  location : Option String := none
  geo_city : Option String := none
  geo_state : Option String := none
  geo_country : Option String := none
  logo : Option String := none
  url : Option String := none
  linkedin_handle : Option String := none
  twitter_handle : Option String := none
  facebook_handle : Option String := none
  tech : List String := []
  tags : List String := []
  type : Option String := none
  phone : Option String := none
  emailProvider : Option Bool := none
  metrics_raised : Option Int := none
  metrics_annualRevenue : Option Int := none
deriving DecidableEq, Repr

/-- The dictionary returned by the LinkedIn company search
(`MockLinkedInScraper.search_company` shape), as read with `.get` by
`DataCollector._merge_company_data`.  The `scraped_at` timestamp is not
read by any code under verification and is omitted. -/
structure LinkedInData where
  name : Option String := none
  linkedin_url : Option String := none
  description : Option String := none
  industry : Option String := none
  company_size : Option String := none
  headquarters : Option String := none
  founded : Option String := none
  website : Option String := none
  employee_count : Option Int := none
deriving DecidableEq, Repr

/-- `MockLinkedInScraper.search_company`: the deterministic sample company
record (the `scraped_at` timestamp aside). -/
def mock_search_company (company_name : String) : LinkedInData :=
  { name := some company_name,
    linkedin_url := some ("https://www.linkedin.com/company/" ++
      pyReplace (pyLowerStr company_name) " " "-" ++ "/"),
    description := some (company_name ++ " is a leading company in its industry."),
    industry := some "Technology",
    company_size := some "50-200 employees",
    headquarters := some "San Francisco, CA",
    founded := some "2020",
    website := some ("https://www." ++ pyReplace (pyLowerStr company_name) " " "" ++ ".com"),
    employee_count := some 150 }

namespace ClearbitService

/-- `ClearbitService.extract_company_info`: normalizes a raw Clearbit
payload into `aggregated_data` keys (the `not clearbit_data` guard is
handled at the call site in `collect_company_data`, which only calls this
on truthy data). -/
def extract_company_info (c : ClearbitData) : AggRecord :=
  { name := c.name,
    domain := c.domain,
    description := c.description,
    industry := c.category_industry,
    sector := c.category_sector,
    employee_count := c.metrics_employees,
    employee_range := c.metrics_employeesRange,
    founded_year := c.foundedYear,
    location := c.location,
    city := c.geo_city,
    state := c.geo_state,
    country := c.geo_country,
    logo_url := c.logo,
    website := c.url,
    linkedin_url := c.linkedin_handle,
    twitter_handle := c.twitter_handle,
    facebook_handle := c.facebook_handle,
    tech_stack := c.tech,
    tags := c.tags,
    type := c.type,
    phone := c.phone,
    email_provider := c.emailProvider,
    funding_total := c.metrics_raised,
    funding_annual_revenue := c.metrics_annualRevenue }

end ClearbitService

/-- The `result` dictionary built by `DataCollector.collect_company_data`
(its `collected_at` timestamp omitted). -/
structure CollectResult where
  company_name : Option String := none
  domain : Option String := none
  linkedin_data : Option LinkedInData := none
  clearbit_data : Option ClearbitData := none
  hunter_data : Option HunterData := none
  aggregated_data : AggRecord := {}
deriving DecidableEq, Repr

namespace DataCollector

/-- `DataCollector._merge_company_data`: starts from `aggregated_data`
(Clearbit extraction plus Hunter keys), fills the six LinkedIn-merged keys
with `merged.get(k) or linkedin.get(k)` (except `linkedin_url`, which is
assigned the LinkedIn value unconditionally), then appends `sources_used`
in the fixed order linkedin, clearbit, hunter. -/
def merge_company_data (r : CollectResult) : AggRecord :=
  let merged := r.aggregated_data
  let merged :=
    match r.linkedin_data with
    | some l =>
        { merged with
          name := orS merged.name l.name,
          description := orS merged.description l.description,
          industry := orS merged.industry l.industry,
          employee_count := orI merged.employee_count l.employee_count,
          website := orS merged.website l.website,
          linkedin_url := l.linkedin_url }
    | none => merged
  { merged with
    sources_used :=
      (if r.linkedin_data.isSome then ["linkedin"] else []) ++
      (if r.clearbit_data.isSome then ["clearbit"] else []) ++
      (if r.hunter_data.isSome then ["hunter"] else []) }

end DataCollector

/-- A contact dictionary flowing into `DataCollector._deduplicate_contacts`.
The union of the keys produced by the two contact sources:
`MockLinkedInScraper.scrape_company_employees` (name, title, location,
profile_url, company, is_decision_maker, seniority_level) and
`HunterService.get_contacts` (email, first_name, last_name, position,
department, seniority, confidence, linkedin, twitter, phone_number).
String-valued slots are `Option (Option String)`: `none` = key absent,
`some none` = key bound to `None`, `some (some s)` = the string `s`
(see the file header); this distinction is observable in the dedup step. -/
structure Contact where
  email : Option (Option String) := none
  first_name : Option (Option String) := none
  last_name : Option (Option String) := none
  name : Option (Option String) := none
  title : Option (Option String) := none
  location : Option (Option String) := none
  profile_url : Option (Option String) := none
  company : Option (Option String) := none
  is_decision_maker : Option Bool := none
  seniority_level : Option (Option String) := none
  position : Option (Option String) := none
  department : Option (Option String) := none
  seniority : Option (Option String) := none
  confidence : Option (Option Int) := none
  linkedin : Option (Option String) := none
  twitter : Option (Option String) := none
  phone_number : Option (Option String) := none
deriving DecidableEq, Repr

/-- Python `d.get(key, default)` on a string slot: the default is returned
only when the key is absent; a key bound to `None` yields `None`
(`Option.none` in the result). -/
def dictGetD (v : Option (Option String)) (dflt : String) : Option String :=
  match v with
  | none => some dflt
  | some x => x

/-- Python `str()` rendering as used by an f-string: `None` prints as
`"None"`. -/
def pyStrOf (v : Option String) : String :=
  match v with
  | none => "None"
  | some s => s

/-- Python `x.lower()`: raises `AttributeError` when `x` is `None`. -/
def pyLower (v : Option String) : Except String String :=
  match v with
  | none => .error "AttributeError: NoneType object has no attribute lower"
  | some s => .ok (pyLowerStr s)

namespace DataCollector

/-- The dedup name key:
`f"{contact.get('first_name', '')} {contact.get('last_name', '')}".lower().strip()`. -/
def nameKey (c : Contact) : String :=
  pyStrip (pyLowerStr (pyStrOf (dictGetD c.first_name "") ++ " " ++
    pyStrOf (dictGetD c.last_name "")))

/-- The dedup email key `contact.get("email", "").lower()` with the
`AttributeError` raised on a `None` email collapsed to `""`: total variant
used to state theorems about contacts that survived deduplication (such a
contact never carries a `None` email, since processing it would have
raised). -/
def emailKeyD (c : Contact) : String :=
  match dictGetD c.email "" with
  | none => ""
  | some s => pyLowerStr s

/-- The `for contact in contacts:` loop of
`DataCollector._deduplicate_contacts`, with the seen-email and seen-name
sets and the accumulated output made explicit.  A `None` email raises
(`.error`), exactly as `None.lower()` does in Python. -/
def dedupLoop : List Contact → List String → List String → List Contact →
    Except String (List Contact)
  | [], _, _, acc => .ok acc.reverse
  | c :: rest, seen_emails, seen_names, acc =>
    match pyLower (dictGetD c.email "") with
    | .error e => .error e
    | .ok email =>
      let name := nameKey c
      if email ≠ "" ∧ email ∉ seen_emails then
        dedupLoop rest (email :: seen_emails) seen_names (c :: acc)
      else if email = "" ∧ name ≠ "" ∧ name ∉ seen_names then
        dedupLoop rest seen_emails (name :: seen_names) (c :: acc)
      else
        dedupLoop rest seen_emails seen_names acc

/-- `DataCollector._deduplicate_contacts`. -/
def deduplicate_contacts (contacts : List Contact) : Except String (List Contact) :=
  dedupLoop contacts [] [] []

/-- The deduplication rule as worded by the specification (for the
refinement theorem): iterate in source-concatenation order; keep a contact
whose non-empty case-folded email has not been seen, marking it seen; keep
a no-email contact only when its non-empty case-folded trimmed
`"first last"` name has not been seen; drop every later duplicate.  The
spec presumes every present email is a string. -/
def dedupSpecGo : List Contact → List String → List String → List Contact
  | [], _, _ => []
  | c :: rest, seen_emails, seen_names =>
    let email := emailKeyD c
    let name := nameKey c
    if email ≠ "" ∧ email ∉ seen_emails then
      c :: dedupSpecGo rest (email :: seen_emails) seen_names
    else if email = "" ∧ name ≠ "" ∧ name ∉ seen_names then
      c :: dedupSpecGo rest seen_emails (name :: seen_names)
    else
      dedupSpecGo rest seen_emails seen_names

/-- Entry point of the spec-level deduplication. -/
def dedupSpec (contacts : List Contact) : List Contact :=
  dedupSpecGo contacts [] []

end DataCollector

/-- The fixed title list of `MockLinkedInScraper.scrape_company_employees`. -/
def mockTitles : List String :=
  ["Chief Executive Officer", "Chief Technology Officer", "VP of Engineering",
   "VP of Sales", "Head of Marketing", "Engineering Manager",
   "Senior Software Engineer", "Product Manager", "Sales Director",
   "Customer Success Manager"]

/-- One employee record of the mock scraper: carries only a combined
`name` (plus title/location/profile data) — no `email`, `first_name` or
`last_name` key. -/
def mock_employee (company_name : String) (i : Nat) : Contact :=
  { name := some (some ("Person " ++ toString (i + 1))),
    title := some (some (mockTitles.getD i "")),
    location := some (some "San Francisco Bay Area"),
    profile_url := some (some ("https://www.linkedin.com/in/person-" ++
      toString (i + 1) ++ "/")),
    company := some (some company_name),
    is_decision_maker := some (decide (i < 5)),
    seniority_level := some (some (if i < 2 then "C-Level"
      else if i < 5 then "VP" else "Manager")) }

/-- `MockLinkedInScraper.scrape_company_employees`: `min(limit, len(titles))`
sample employees (the `scraped_at` timestamp omitted). -/
def mock_scrape_company_employees (company_name : String) (limit : Nat) :
    List Contact :=
  (List.range (min limit mockTitles.length)).map (mock_employee company_name)

namespace HunterService

/-- The contact dictionary built for one Hunter email entry inside
`HunterService.get_contacts`: every key is written, so each slot is
present (`some _`), possibly bound to `None` — in particular
`email = some e.value` is `some none` when the provider returned a null
`value`. -/
def hunter_contact (e : EmailEntry) : Contact :=
  { email := some e.value,
    first_name := some e.first_name,
    last_name := some e.last_name,
    position := some e.position,
    department := some e.department,
    seniority := some e.seniority,
    confidence := some e.confidence,
    linkedin := some e.linkedin,
    twitter := some e.twitter,
    phone_number := some e.phone_number }

/-- The list-building part of `HunterService.get_contacts`: given the
domain-search `data` (already fetched), returns the first `limit` email
entries as contact dictionaries when the `"emails"` key is present, else
`[]`. -/
def get_contacts_from (data : Option HunterData) (limit : Nat) : List Contact :=
  match data with
  | some d =>
    match d.emails with
    | some emails => (emails.take limit).map hunter_contact
    | none => []
  | none => []

end HunterService

/-- An observable side effect of the pipeline: a cache read, a cache
write, a network request, or the scraper's politeness delay. -/
inductive Effect where
  | cacheGet (ns id : String)
  | cacheSet (ns id : String)
  | network (endpoint : String)
  | sleep
deriving DecidableEq, Repr

/-- A JSON value, the payload type of the cache
(`json.dumps` / `json.loads` round-trips such a value identically, so the
store holds the value itself rather than its serialization). -/
inductive JValue where
  | null
  | bool (b : Bool)
  | num (n : Int)
  | str (s : String)
  | arr (elems : List JValue)
  | obj (fields : List (String × JValue))

/-- Python `x is None` on a JSON value. -/
def JValue.isNull : JValue → Bool
  | .null => true
  | _ => false

/-- `settings.cache_ttl` (7 days). -/
def default_cache_ttl : Nat := 604800

/-- The Redis store as seen through `CacheService`: a key/value/expiry list
plus a logical clock (seconds).  An entry is live while `now < expiry`. -/
structure CacheState where
  store : List (String × JValue × Nat) := []
  now : Nat := 0

namespace CacheService

/-- `CacheService._generate_key`. -/
def generate_key (namespace_ identifier : String) : String :=
  "cache:" ++ namespace_ ++ ":" ++ identifier

/-- `CacheService.get`.  Returns the Python value: `JValue.null` stands for
the Python `None` returned on a miss or expiry — and also when the stored
JSON value is `null` itself, exactly as `json.loads("null")` is `None`
(the serialized string is never empty, so `if data:` passes whenever the
key is live). -/
def get (st : CacheState) (namespace_ identifier : String) : JValue :=
  match st.store.find? (fun e => e.1 == generate_key namespace_ identifier) with
  | some (_, v, expiry) => if st.now < expiry then v else .null
  | none => .null

/-- `CacheService.set`: `setex(key, ttl or default_ttl, json.dumps(data))`,
overwriting any previous entry under the key; returns `True`. -/
def set (st : CacheState) (namespace_ identifier : String) (data : JValue)
    (ttl : Option Nat) : CacheState × Bool :=
  let key := generate_key namespace_ identifier
  let ttl_seconds :=
    match ttl with
    | some t => if t ≠ 0 then t else default_cache_ttl
    | none => default_cache_ttl
  ({ st with store :=
      (key, data, st.now + ttl_seconds) :: st.store.filter (fun e => e.1 ≠ key) },
   true)

/-- `CacheService.delete`: removes the key, returns `True`. -/
def delete (st : CacheState) (namespace_ identifier : String) : CacheState × Bool :=
  let key := generate_key namespace_ identifier
  ({ st with store := st.store.filter (fun e => e.1 ≠ key) }, true)

/-- `CacheService.exists`: `bool(redis.exists(key))` — true iff the key is
live (Redis hides expired keys). -/
def exists_key (st : CacheState) (namespace_ identifier : String) : Bool :=
  match st.store.find? (fun e => e.1 == generate_key namespace_ identifier) with
  | some (_, _, expiry) => st.now < expiry
  | none => false

/-- `CacheService.get_or_set`: return the cached value when `get` yields a
non-`None` value; otherwise call `fetch_func` (modelled as an
already-evaluated `Except`, `.error` = the call raised), store its result
when it is not `None`, and return it; a raising `fetch_func` is caught and
degrades to returning `None`. -/
def get_or_set (st : CacheState) (namespace_ identifier : String)
    (fetch_func : Except String JValue) (ttl : Option Nat) : CacheState × JValue :=
  let cached := get st namespace_ identifier
  if ¬ cached.isNull then (st, cached)
  else
    match fetch_func with
    | .error _ => (st, .null)
    | .ok data =>
      if ¬ data.isNull then ((set st namespace_ identifier data ttl).1, data)
      else (st, data)

end CacheService

/-- Advance the cache clock by `d` seconds. -/
def elapse (st : CacheState) (d : Nat) : CacheState :=
  { st with now := st.now + d }

/-- A raw Hunter.io HTTP response body as returned by `_make_request`
(already JSON-decoded); `data = some _` iff the `"data"` key is present. -/
structure HunterResponse where
  data : Option HunterData := none
deriving DecidableEq, Repr

/-- Environment of `HunterService`: the configured credential, the
current content of the `"hunter"` cache namespace (`none` = miss, expired
or falsy) and the network oracle (`none` = non-200 status, timeout or any
other failure `_make_request` maps to `None`). -/
structure HunterEnv where
  api_key : Option String := none
  cache : String → Option HunterData := fun _ => none
  net : String → Option HunterResponse := fun _ => none

namespace HunterService

/-- `HunterService.is_available`: `bool(self.api_key)`. -/
def is_available (env : HunterEnv) : Bool :=
  truthyS env.api_key

/-- `HunterService._make_request`: without a configured key, warns and
returns `None` making no request; with one, performs the network call
(status mapping and exception handling folded into the oracle). -/
def make_request (env : HunterEnv) (endpoint domain : String) :
    Option HunterResponse × List Effect :=
  if truthyS env.api_key then (env.net domain, [Effect.network endpoint])
  else (none, [])

/-- `HunterService.domain_search`: cache probe (when `use_cache`), then the
`domain-search` request, then a cache write-back of the `"data"` payload
(when `use_cache` and the request produced one). -/
def domain_search (env : HunterEnv) (domain : String) (use_cache : Bool) :
    Option HunterData × List Effect :=
  let cache_id := "hunter_domain:" ++ domain
  let getTr := if use_cache then [Effect.cacheGet "hunter" cache_id] else []
  let cached := if use_cache then env.cache cache_id else none
  match cached with
  | some c => (some c, getTr)
  | none =>
    let (resp, netTr) := make_request env "domain-search" domain
    match resp with
    | some r =>
      match r.data with
      | some data =>
        (some data,
         getTr ++ netTr ++ (if use_cache then [Effect.cacheSet "hunter" cache_id] else []))
      | none => (none, getTr ++ netTr)
    | none => (none, getTr ++ netTr)

/-- `HunterService.get_email_pattern`: `domain_search(domain)` (with its
default `use_cache=True`), then `data.get("pattern")` when the data is
truthy. -/
def get_email_pattern (env : HunterEnv) (domain : String) :
    Option String × List Effect :=
  let (data, tr) := domain_search env domain true
  match data with
  | some d => (d.pattern, tr)
  | none => (none, tr)

/-- The string-substitution block of `HunterService.generate_email`
(lines `email = pattern.lower()` through the four `.replace` calls):
lower-cases the pattern, then substitutes the lower-cased first name for
`\x7bfirst\x7d`, the lower-cased last name for `\x7blast\x7d`, and the
lower-cased initials for `\x7bf\x7d` / `\x7bl\x7d` (empty when the
corresponding name is empty). -/
def substitute_pattern (pattern first_name last_name : String) : String :=
  let email := pyLowerStr pattern
  let email := pyReplace email "\x7bfirst\x7d" (pyLowerStr first_name)
  let email := pyReplace email "\x7blast\x7d" (pyLowerStr last_name)
  let email := pyReplace email "\x7bf\x7d"
    (if first_name ≠ "" then pyLowerStr (pyFirstChar first_name) else "")
  let email := pyReplace email "\x7bl\x7d"
    (if last_name ≠ "" then pyLowerStr (pyFirstChar last_name) else "")
  email

/-- `HunterService.generate_email`: fetches the pattern through
`get_email_pattern` (hence through `domain_search`), returns `None` for a
falsy pattern, else the substituted address. -/
def generate_email (env : HunterEnv) (first_name last_name domain : String) :
    Option String × List Effect :=
  let (pattern, tr) := get_email_pattern env domain
  match pattern with
  | some p =>
    if p ≠ "" then (some (substitute_pattern p first_name last_name), tr)
    else (none, tr)
  | none => (none, tr)

/-- `HunterService.get_contacts`: `domain_search(domain)` (default
`use_cache=True`) followed by the contact-list construction. -/
def get_contacts (env : HunterEnv) (domain : String) (limit : Nat) :
    List Contact × List Effect :=
  let (data, tr) := domain_search env domain true
  (get_contacts_from data limit, tr)

end HunterService

/-- Environment of `ClearbitService`: credential, current `"clearbit"`
cache namespace content and network oracle, as for `HunterEnv`. -/
structure ClearbitEnv where
  api_key : Option String := none
  cache : String → Option ClearbitData := fun _ => none
  net : String → Option ClearbitData := fun _ => none

namespace ClearbitService

/-- `ClearbitService.is_available`: `bool(self.api_key)`. -/
def is_available (env : ClearbitEnv) : Bool :=
  truthyS env.api_key

/-- `ClearbitService._make_request` (status mapping and exception handling
folded into the oracle, which yields the decoded 200 body or `None`). -/
def make_request (env : ClearbitEnv) (endpoint domain : String) :
    Option ClearbitData × List Effect :=
  if truthyS env.api_key then (env.net domain, [Effect.network endpoint])
  else (none, [])

/-- `ClearbitService.enrich_company`: cache probe (when `use_cache`), then
the `companies/find` request, then a write-back of truthy data. -/
def enrich_company (env : ClearbitEnv) (domain : String) (use_cache : Bool) :
    Option ClearbitData × List Effect :=
  let getTr := if use_cache then [Effect.cacheGet "clearbit" domain] else []
  let cached := if use_cache then env.cache domain else none
  match cached with
  | some c => (some c, getTr)
  | none =>
    let (data, netTr) := make_request env "companies/find" domain
    match data with
    | some d =>
      (some d,
       getTr ++ netTr ++ (if use_cache then [Effect.cacheSet "clearbit" domain] else []))
    | none => (none, getTr ++ netTr)

end ClearbitService

/-- The services a `DataCollector` talks to (the LinkedIn side is the
deterministic mock scraper and needs no oracle). -/
structure CollectorEnv where
  clearbit : ClearbitEnv := {}
  hunter : HunterEnv := {}

namespace DataCollector

/-- `DataCollector.collect_company_data`: validates the input, then
queries LinkedIn (mock; if a truthy name was given), Clearbit (if a truthy
domain was given and the credential is configured) and Hunter (likewise),
updates `aggregated_data` from Clearbit's extraction and Hunter's
pattern/total, and finally merges.  The returned trace records all cache
and network traffic in program order. -/
def collect_company_data (env : CollectorEnv) (company_name domain : Option String)
    (use_cache : Bool) : Except String CollectResult × List Effect :=
  if ¬ truthyS company_name ∧ ¬ truthyS domain then
    (.error "Either company_name or domain must be provided", [])
  else
    let r : CollectResult := { company_name := company_name, domain := domain }
    let (r, tr1) :=
      if truthyS company_name then
        ({ r with linkedin_data := some (mock_search_company (company_name.getD "")) },
         [Effect.sleep])
      else (r, [])
    let (r, tr2) :=
      if truthyS domain ∧ ClearbitService.is_available env.clearbit then
        let (cb, tr) := ClearbitService.enrich_company env.clearbit (domain.getD "") use_cache
        let r := { r with clearbit_data := cb }
        match cb with
        | some c =>
          ({ r with aggregated_data := ClearbitService.extract_company_info c }, tr)
        | none => (r, tr)
      else (r, [])
    let (r, tr3) :=
      if truthyS domain ∧ HunterService.is_available env.hunter then
        let (hd, tr) := HunterService.domain_search env.hunter (domain.getD "") use_cache
        let r := { r with hunter_data := hd }
        match hd with
        | some h =>
          ({ r with aggregated_data :=
              { r.aggregated_data with
                email_pattern := h.pattern,
                total_emails_found := some (h.total.getD 0) } }, tr)
        | none => (r, tr)
      else (r, [])
    let r := { r with aggregated_data := merge_company_data r }
    (.ok r, tr1 ++ tr2 ++ tr3)

/-- `DataCollector.collect_contacts`: concatenates the mock LinkedIn
employee list with Hunter's contacts (when available), deduplicates, and
truncates to `limit`.  The dedup step is not inside a `try` block, so its
`AttributeError` propagates to the caller. -/
def collect_contacts (env : CollectorEnv) (company_name domain : String)
    (limit : Nat) (_use_cache : Bool) : Except String (List Contact) × List Effect :=
  let linkedin_contacts := mock_scrape_company_employees company_name limit
  let (hunter_contacts, tr) :=
    if HunterService.is_available env.hunter then
      HunterService.get_contacts env.hunter domain limit
    else ([], [])
  let contacts := linkedin_contacts ++ hunter_contacts
  ((deduplicate_contacts contacts).map (fun l => l.take limit),
   Effect.sleep :: tr)

end DataCollector

/-- The three-contact example list of the dedup specification:
`[{email:"a@x.com",name:"A"}, {email:"A@X.COM",name:"A2"}, {email:"b@x.com",name:"B"}]`. -/
def exContactA : Contact :=
  { email := some (some "a@x.com"), name := some (some "A") }

/-- Second example contact (duplicate of the first up to email case). -/
def exContactA2 : Contact :=
  { email := some (some "A@X.COM"), name := some (some "A2") }

/-- Third example contact. -/
def exContactB : Contact :=
  { email := some (some "b@x.com"), name := some (some "B") }

/-- The example input list for contact deduplication. -/
def exampleContacts : List Contact :=
  [exContactA, exContactA2, exContactB]

/-- A Hunter domain-search payload whose single email entry has a null
`value` — the provider shape `HunterService.get_contacts` maps to a
contact with `email = None`. -/
def nullEmailHunterData : HunterData :=
  { emails := some [{ value := none, first_name := some "Jane",
                      last_name := some "Doe", position := some "CEO" }] }

/-- Two surviving contacts clash on no deduplication key: if both carry a
non-empty (case-folded) email the emails differ, and if neither carries
one their normalized full names differ. -/
def contactKeysDistinct (a b : Contact) : Prop :=
  (DataCollector.emailKeyD a ≠ "" → DataCollector.emailKeyD b ≠ "" →
    DataCollector.emailKeyD a ≠ DataCollector.emailKeyD b) ∧
  (DataCollector.emailKeyD a = "" → DataCollector.emailKeyD b = "" →
    DataCollector.nameKey a ≠ DataCollector.nameKey b)

/-- Concrete Clearbit payload for the merge-precedence theorems: the
firmographic source provides `industry`, a `linkedin` handle and more. -/
def acmeClearbit : ClearbitData :=
  { name := some "Acme",
    domain := some "acme.com",
    category_industry := some "Fintech",
    linkedin_handle := some "company/acme-firmographic" }

/-- Collector environment in which the Clearbit credential is configured
and its network returns `acmeClearbit` (Hunter unconfigured). -/
def acmeEnv : CollectorEnv :=
  { clearbit := { api_key := some "cb-key", net := fun _ => some acmeClearbit } }

/-- Merge input with a firmographic `industry = "Fintech"` and a
scraped-profile `industry = "Banking"`. -/
def fintechMergeInput : CollectResult :=
  { aggregated_data := { industry := some "Fintech" },
    linkedin_data := some { industry := some "Banking" } }

/-- Hunter environment with a configured key, an empty cache, and a
network oracle returning a `\x7bfirst\x7d.\x7blast\x7d@acme.com` pattern. -/
def acmeHunterEnv : HunterEnv :=
  { api_key := some "hunter-key",
    net := fun _ =>
      some { data := some { pattern := some "\x7bfirst\x7d.\x7blast\x7d@acme.com" } } }

/-- C1 counterexample: a record with every field empty scores exactly `0`,
not `5` — `calculate_lead_score` awards no size-fit points when
`employee_count` is absent, because the whole size block sits under
`if employee_count:`. -/
theorem empty_record_scores_zero_not_five :
    DataCollector.calculate_lead_score emptyAggRecord = 0 ∧
    DataCollector.calculate_lead_score emptyAggRecord ≠ 5 := by
  have h : DataCollector.calculate_lead_score emptyAggRecord = 0 := by
    norm_num [DataCollector.calculate_lead_score, DataCollector.completenessScore,
      DataCollector.sizeFitScore, DataCollector.fundingScore, DataCollector.techScore,
      DataCollector.contactScore, emptyAggRecord, pymin, truthyS, truthyI]
  exact ⟨h, by rw [h]; norm_num⟩

/-- C1 (amended): an absent `employee_count` falls outside every size-fit
bucket and contributes 0 points (not the 5 points of the `> 1000` bucket),
so the score of such a record is the capped sum of the remaining four
components; in particular a fully empty record scores 0, not 5. -/
theorem absent_employee_count_awards_no_size_points (d : AggRecord)
    (h : d.employee_count = none) :
    DataCollector.sizeFitScore d = 0 ∧
    DataCollector.calculate_lead_score d =
      pymin (DataCollector.completenessScore d + DataCollector.fundingScore d +
             DataCollector.techScore d + DataCollector.contactScore d) 100 := by
  have hs : DataCollector.sizeFitScore d = 0 := by
    simp [DataCollector.sizeFitScore, h]
  refine ⟨hs, ?_⟩
  simp [DataCollector.calculate_lead_score, hs, add_zero]

/-- Witness for `absent_employee_count_awards_no_size_points` at the fully
empty record. -/
theorem absent_employee_count_awards_no_size_points_witness :
    DataCollector.sizeFitScore emptyAggRecord = 0 ∧
    DataCollector.calculate_lead_score emptyAggRecord =
      pymin (DataCollector.completenessScore emptyAggRecord +
             DataCollector.fundingScore emptyAggRecord +
             DataCollector.techScore emptyAggRecord +
             DataCollector.contactScore emptyAggRecord) 100 :=
  absent_employee_count_awards_no_size_points emptyAggRecord rfl

/-- C5: `collect_company_data` called with neither a company name nor a
domain fails immediately with the invalid-input `ValueError` and performs
no network, cache or scraper call at all (empty effect trace). -/
theorem collect_company_data_invalid_input (env : CollectorEnv) (use_cache : Bool) :
    DataCollector.collect_company_data env none none use_cache =
      (.error "Either company_name or domain must be provided", []) := by
  simp [DataCollector.collect_company_data, truthyS]

/-- C7: `get_or_set` returns the cached value when `get` finds one;
otherwise it evaluates `fetch_func`, returns its result, stores it only
when it is not `None`, and a raising `fetch_func` degrades to returning
`None` with the store untouched — the failure is not propagated (the
result type of `get_or_set` carries no error at all). -/
theorem get_or_set_contract (st : CacheState) (namespace_ identifier : String)
    (fetch_func : Except String JValue) (ttl : Option Nat) :
    ((CacheService.get st namespace_ identifier).isNull = false →
      CacheService.get_or_set st namespace_ identifier fetch_func ttl =
        (st, CacheService.get st namespace_ identifier)) ∧
    ((CacheService.get st namespace_ identifier).isNull = true →
      (∀ e, fetch_func = .error e →
        CacheService.get_or_set st namespace_ identifier fetch_func ttl = (st, .null)) ∧
      (∀ data, fetch_func = .ok data →
        (CacheService.get_or_set st namespace_ identifier fetch_func ttl).2 = data ∧
        (data.isNull = false →
          (CacheService.get_or_set st namespace_ identifier fetch_func ttl).1 =
            (CacheService.set st namespace_ identifier data ttl).1) ∧
        (data.isNull = true →
          (CacheService.get_or_set st namespace_ identifier fetch_func ttl).1 = st))) := by
  constructor
  · intro h
    simp [CacheService.get_or_set, h]
  · intro h
    constructor
    · intro e he
      simp [CacheService.get_or_set, h, he]
    · intro data hdata
      refine ⟨?_, ?_, ?_⟩
      · cases hn : data.isNull <;>
          simp [CacheService.get_or_set, h, hdata, hn]
      · intro hn
        simp [CacheService.get_or_set, h, hdata, hn]
      · intro hn
        simp [CacheService.get_or_set, h, hdata, hn]

/-- Witness for `get_or_set_contract`: on an empty cache a successful
`fetch_func` result is returned to the caller. -/
theorem get_or_set_contract_witness :
    (CacheService.get_or_set {} "hunter" "hunter_domain:acme.com"
      (.ok (JValue.str "v")) none).2 = JValue.str "v" :=
  (((get_or_set_contract {} "hunter" "hunter_domain:acme.com"
      (.ok (JValue.str "v")) none).2 rfl).2 (JValue.str "v") rfl).1

/-- C10: a `set` followed (any strictly-shorter-than-`ttl` delay later) by
a `get` of the same namespace/identifier returns exactly the stored value,
and after `delete` the key no longer `exists`. -/
theorem cache_round_trip (st : CacheState) (namespace_ identifier : String)
    (v : JValue) (ttl d : Nat) (httl : 0 < ttl) (hd : d < ttl) :
    CacheService.get
      (elapse (CacheService.set st namespace_ identifier v (some ttl)).1 d)
      namespace_ identifier = v ∧
    CacheService.exists_key (CacheService.delete st namespace_ identifier).1
      namespace_ identifier = false := by
  constructor
  · have httl' : ttl ≠ 0 := Nat.pos_iff_ne_zero.mp httl
    simp [CacheService.set, CacheService.get, elapse, httl', List.find?, hd]
  · have hnone : List.find?
        (fun e => e.1 == CacheService.generate_key namespace_ identifier)
        (List.filter (fun e => e.1 ≠ CacheService.generate_key namespace_ identifier)
          st.store) = none := by
      rw [List.find?_eq_none]
      intro x hx
      have hmem := List.of_mem_filter hx
      simpa using hmem
    simp only [CacheService.delete, CacheService.exists_key, hnone]

/-- Witness for `cache_round_trip` with `{"a": 1}` stored for 60 seconds
and read back 30 seconds later. -/
theorem cache_round_trip_witness :
    (0 < 60 ∧ 30 < 60) ∧
    (CacheService.get
        (elapse (CacheService.set {} "company" "acme.com"
          (JValue.obj [("a", JValue.num 1)]) (some 60)).1 30) "company" "acme.com" =
      JValue.obj [("a", JValue.num 1)] ∧
     CacheService.exists_key (CacheService.delete {} "company" "acme.com").1
       "company" "acme.com" = false) :=
  ⟨⟨by decide, by decide⟩,
   cache_round_trip {} "company" "acme.com" (JValue.obj [("a", JValue.num 1)])
     60 30 (by decide) (by decide)⟩


/-- C2 counterexample: with the firmographic source supplying a
`linkedin_url` (from its `linkedin.handle`) and the scraped profile also
supplying one, the record produced by `collect_company_data` carries the
scraped-profile value — `_merge_company_data` assigns
`linkedin.get("linkedin_url")` unconditionally, so this field does not
take the firmographic value. -/
theorem merged_linkedin_url_is_scraped_not_firmographic :
    ((DataCollector.collect_company_data acmeEnv (some "Acme") (some "acme.com")
        true).1.map (fun r => r.aggregated_data.linkedin_url)) =
      .ok (some "https://www.linkedin.com/company/acme/") ∧
    (ClearbitService.extract_company_info acmeClearbit).linkedin_url =
      some "company/acme-firmographic" ∧
    (some "https://www.linkedin.com/company/acme/" : Option String) ≠
      some "company/acme-firmographic" := by
  refine ⟨rfl, rfl, by decide⟩

/-- C2 (amended): for the five contested fields (name, description,
industry, employee_count, website) a truthy firmographic value wins and
the scraped-profile value is used exactly when the firmographic value is
falsy (absent, `None`, empty or zero); `linkedin_url`, by contrast, is
always overwritten with the scraped-profile value whenever scraped data is
present. -/
theorem merge_precedence_truthiness (r : CollectResult) (l : LinkedInData)
    (h : r.linkedin_data = some l) :
    (truthyS r.aggregated_data.name = true →
      (DataCollector.merge_company_data r).name = r.aggregated_data.name) ∧
    (truthyS r.aggregated_data.name = false →
      (DataCollector.merge_company_data r).name = l.name) ∧
    (truthyS r.aggregated_data.description = true →
      (DataCollector.merge_company_data r).description = r.aggregated_data.description) ∧
    (truthyS r.aggregated_data.description = false →
      (DataCollector.merge_company_data r).description = l.description) ∧
    (truthyS r.aggregated_data.industry = true →
      (DataCollector.merge_company_data r).industry = r.aggregated_data.industry) ∧
    (truthyS r.aggregated_data.industry = false →
      (DataCollector.merge_company_data r).industry = l.industry) ∧
    (truthyI r.aggregated_data.employee_count = true →
      (DataCollector.merge_company_data r).employee_count =
        r.aggregated_data.employee_count) ∧
    (truthyI r.aggregated_data.employee_count = false →
      (DataCollector.merge_company_data r).employee_count = l.employee_count) ∧
    (truthyS r.aggregated_data.website = true →
      (DataCollector.merge_company_data r).website = r.aggregated_data.website) ∧
    (truthyS r.aggregated_data.website = false →
      (DataCollector.merge_company_data r).website = l.website) ∧
    (DataCollector.merge_company_data r).linkedin_url = l.linkedin_url := by
  refine ⟨?_, ?_, ?_, ?_, ?_, ?_, ?_, ?_, ?_, ?_, ?_⟩ <;>
    simp only [DataCollector.merge_company_data, h] <;>
    intro ht <;> simp [orS, orI, ht]

/-- Witness for `merge_precedence_truthiness`: firmographic
`industry="Fintech"` beats scraped `industry="Banking"`. -/
theorem merge_precedence_truthiness_witness :
    (DataCollector.merge_company_data fintechMergeInput).industry = some "Fintech" :=
  (merge_precedence_truthiness fintechMergeInput { industry := some "Banking" }
    rfl).2.2.2.2.1 (by decide)

/-- C8 counterexample: `generate_email` does perform a network fetch — it
obtains the pattern through `get_email_pattern`/`domain_search`, and on a
cache miss with a configured key the `domain-search` request appears in
its effect trace (while the produced address is indeed the substituted
pattern). -/
theorem generate_email_makes_network_call :
    (HunterService.generate_email acmeHunterEnv "John" "Doe" "acme.com").1 =
      some "john.doe@acme.com" ∧
    Effect.network "domain-search" ∈
      (HunterService.generate_email acmeHunterEnv "John" "Doe" "acme.com").2 := by
  refine ⟨rfl, by decide⟩

/-- C8 (amended): the substitution step of `generate_email` is pure string
rewriting — whenever the fetched pattern is a non-empty string `p`, the
output is the lower-cased `p` with `\x7bfirst\x7d` / `\x7blast\x7d` /
`\x7bf\x7d` / `\x7bl\x7d` replaced by the lower-cased name fragments
(`substitute_pattern`) — but the pattern is fetched through
`get_email_pattern`, so `generate_email`'s effects are exactly that
fetch's cache/network effects (a non-pure step the claim denies). -/
theorem generate_email_is_fetch_then_substitution (env : HunterEnv)
    (first_name last_name domain : String) :
    (HunterService.generate_email env first_name last_name domain).2 =
      (HunterService.get_email_pattern env domain).2 ∧
    (∀ p, (HunterService.get_email_pattern env domain).1 = some p → p ≠ "" →
      (HunterService.generate_email env first_name last_name domain).1 =
        some (HunterService.substitute_pattern p first_name last_name)) ∧
    ((HunterService.get_email_pattern env domain).1 = some "" →
      (HunterService.generate_email env first_name last_name domain).1 = none) ∧
    ((HunterService.get_email_pattern env domain).1 = none →
      (HunterService.generate_email env first_name last_name domain).1 = none) := by
  cases hp : HunterService.get_email_pattern env domain with
  | mk pat tr =>
    refine ⟨?_, ?_, ?_, ?_⟩
    · cases pat with
      | none => simp [HunterService.generate_email, hp]
      | some p =>
        by_cases hps : p = "" <;>
          simp [HunterService.generate_email, hp, hps]
    · intro p hpat hpne
      simp only at hpat
      subst hpat
      simp [HunterService.generate_email, hp, hpne]
    · intro hpat
      simp only at hpat
      subst hpat
      simp [HunterService.generate_email, hp]
    · intro hpat
      simp only at hpat
      subst hpat
      simp [HunterService.generate_email, hp]

/-- Witness for `generate_email_is_fetch_then_substitution` at the
concrete environment of the counterexample. -/
theorem generate_email_is_fetch_then_substitution_witness :
    (HunterService.generate_email acmeHunterEnv "John" "Doe" "acme.com").1 =
      some (HunterService.substitute_pattern "\x7bfirst\x7d.\x7blast\x7d@acme.com"
        "John" "Doe") :=
  (generate_email_is_fetch_then_substitution acmeHunterEnv "John" "Doe"
    "acme.com").2.1 "\x7bfirst\x7d.\x7blast\x7d@acme.com" rfl (by decide)

/-- If the dedup email-key computation succeeded with `.ok email`, then
`email` is the (total) `emailKeyD` of the contact. -/
theorem pyLower_ok_emailKey (c : Contact) (email : String)
    (h : pyLower (dictGetD c.email "") = .ok email) :
    email = DataCollector.emailKeyD c := by
  cases hce : c.email with
  | none =>
    rw [hce] at h
    simp only [dictGetD, pyLower, Except.ok.injEq] at h
    simp [DataCollector.emailKeyD, hce, dictGetD, ← h]
  | some oe =>
    cases oe with
    | none =>
      rw [hce] at h
      simp [dictGetD, pyLower] at h
    | some str =>
      rw [hce] at h
      simp only [dictGetD, pyLower, Except.ok.injEq] at h
      simp [DataCollector.emailKeyD, hce, dictGetD, ← h]

/-- On a contact whose email slot is not a present `None`, the dedup
email-key computation succeeds and computes `emailKeyD`. -/
theorem pyLower_email_ok (c : Contact) (hc : c.email ≠ some none) :
    pyLower (dictGetD c.email "") = .ok (DataCollector.emailKeyD c) := by
  cases hce : c.email with
  | none => simp [dictGetD, pyLower, DataCollector.emailKeyD, hce]
  | some oe =>
    cases oe with
    | none => exact absurd hce hc
    | some str => simp [dictGetD, pyLower, DataCollector.emailKeyD, hce]

/-- The dedup loop agrees with the spec-level rule whenever no email slot
is a present `None`, up to the accumulator prefix. -/
theorem dedupLoop_eq_specGo :
    ∀ (cs : List Contact) (seenE seenN : List String) (acc : List Contact),
    (∀ c ∈ cs, c.email ≠ some none) →
    DataCollector.dedupLoop cs seenE seenN acc =
      .ok (acc.reverse ++ DataCollector.dedupSpecGo cs seenE seenN)
  | [], seenE, seenN, acc, _ => by
    simp [DataCollector.dedupLoop, DataCollector.dedupSpecGo]
  | c :: rest, seenE, seenN, acc, h => by
    have hc : c.email ≠ some none := h c (List.mem_cons_self c rest)
    have hrest : ∀ x ∈ rest, x.email ≠ some none :=
      fun x hx => h x (List.mem_cons_of_mem c hx)
    simp only [DataCollector.dedupLoop, DataCollector.dedupSpecGo,
      pyLower_email_ok c hc]
    by_cases h1 : DataCollector.emailKeyD c ≠ "" ∧
        DataCollector.emailKeyD c ∉ seenE
    · rw [if_pos h1, if_pos h1,
        dedupLoop_eq_specGo rest _ _ _ hrest]
      simp
    · by_cases h2 : DataCollector.emailKeyD c = "" ∧
          DataCollector.nameKey c ≠ "" ∧ DataCollector.nameKey c ∉ seenN
      · rw [if_neg h1, if_pos h2, if_neg h1, if_pos h2,
          dedupLoop_eq_specGo rest _ _ _ hrest]
        simp
      · rw [if_neg h1, if_neg h2, if_neg h1, if_neg h2]
        exact dedupLoop_eq_specGo rest _ _ _ hrest

/-- C3: on any contact list whose present emails are strings, the code's
deduplication implements exactly the spec rule: first-seen wins under the
case-folded email key when the email is non-empty, under the case-folded
trimmed `"first last"` name key when there is no email, and later
duplicates are dropped, not merged. -/
theorem dedup_refines_spec_rule (cs : List Contact)
    (h : ∀ c ∈ cs, c.email ≠ some none) :
    DataCollector.deduplicate_contacts cs = .ok (DataCollector.dedupSpec cs) := by
  unfold DataCollector.deduplicate_contacts DataCollector.dedupSpec
  simpa using dedupLoop_eq_specGo cs [] [] [] h

/-- Witness for `dedup_refines_spec_rule`: the spec's three-contact example
yields exactly the first-seen `"A"` and `"B"`. -/
theorem dedup_refines_spec_rule_witness :
    DataCollector.deduplicate_contacts exampleContacts = .ok [exContactA, exContactB] := by
  have h := dedup_refines_spec_rule exampleContacts (by decide)
  rw [h]
  rfl

/-- C9: deduplication completes without raising on every contact list in
which each present email is a string; the precondition is necessary — the
email-discovery source can produce a contact with `email = None` (from a
null provider `value`), and deduplicating it raises the `AttributeError`
of `None.lower()`. -/
theorem dedup_total_on_string_emails :
    (∀ cs : List Contact, (∀ c ∈ cs, c.email ≠ some none) →
      ∃ out, DataCollector.deduplicate_contacts cs = .ok out) ∧
    DataCollector.deduplicate_contacts
        (HunterService.get_contacts_from (some nullEmailHunterData) 10) =
      .error "AttributeError: NoneType object has no attribute lower" := by
  constructor
  · intro cs h
    exact ⟨_, by simpa using dedupLoop_eq_specGo cs [] [] [] h⟩
  · rfl

/-- Witness for `dedup_total_on_string_emails` at the example list. -/
theorem dedup_total_on_string_emails_witness :
    ∃ out, DataCollector.deduplicate_contacts exampleContacts = .ok out :=
  dedup_total_on_string_emails.1 exampleContacts (by decide)

/-- `contactKeysDistinct` is symmetric. -/
theorem contactKeysDistinct_symm {a b : Contact} :
    contactKeysDistinct a b → contactKeysDistinct b a :=
  fun h => ⟨fun hb ha => Ne.symm (h.1 ha hb), fun hb ha => Ne.symm (h.2 ha hb)⟩

/-- Invariant induction for the dedup loop: assuming every accumulated
contact's non-empty email key is recorded in `seenE` and every accumulated
no-email contact's name key is recorded in `seenN`, a successful loop run
yields a pairwise key-distinct output. -/
theorem dedupLoop_pairwise :
    ∀ (cs : List Contact) (seenE seenN : List String) (acc out : List Contact),
    DataCollector.dedupLoop cs seenE seenN acc = .ok out →
    (∀ c ∈ acc, DataCollector.emailKeyD c ≠ "" →
      DataCollector.emailKeyD c ∈ seenE) →
    (∀ c ∈ acc, DataCollector.emailKeyD c = "" →
      DataCollector.nameKey c ∈ seenN) →
    acc.Pairwise contactKeysDistinct →
    out.Pairwise contactKeysDistinct
  | [], seenE, seenN, acc, out, h, _, _, hpw => by
    simp only [DataCollector.dedupLoop, Except.ok.injEq] at h
    subst h
    exact (List.pairwise_reverse).mpr (hpw.imp contactKeysDistinct_symm)
  | c :: rest, seenE, seenN, acc, out, h, hE, hN, hpw => by
    cases hpl : pyLower (dictGetD c.email "") with
    | error e =>
      simp [DataCollector.dedupLoop, hpl] at h
    | ok email =>
      have hek := pyLower_ok_emailKey c email hpl
      subst hek
      simp only [DataCollector.dedupLoop, hpl] at h
      by_cases h1 : DataCollector.emailKeyD c ≠ "" ∧
          DataCollector.emailKeyD c ∉ seenE
      · rw [if_pos h1] at h
        refine dedupLoop_pairwise rest _ _ _ _ h ?_ ?_ ?_
        · intro x hx hxe
          rcases List.mem_cons.mp hx with rfl | hx'
          · exact List.mem_cons_self _ _
          · exact List.mem_cons_of_mem _ (hE x hx' hxe)
        · intro x hx hxe
          rcases List.mem_cons.mp hx with rfl | hx'
          · exact absurd hxe h1.1
          · exact hN x hx' hxe
        · refine List.Pairwise.cons ?_ hpw
          intro x hx
          refine ⟨?_, ?_⟩
          · intro _ hxe heq
            exact h1.2 (by rw [heq]; exact hE x hx hxe)
          · intro hce
            exact absurd hce h1.1
      · by_cases h2 : DataCollector.emailKeyD c = "" ∧
            DataCollector.nameKey c ≠ "" ∧ DataCollector.nameKey c ∉ seenN
        · rw [if_neg h1, if_pos h2] at h
          refine dedupLoop_pairwise rest _ _ _ _ h ?_ ?_ ?_
          · intro x hx hxe
            rcases List.mem_cons.mp hx with rfl | hx'
            · exact absurd h2.1 hxe
            · exact hE x hx' hxe
          · intro x hx hxe
            rcases List.mem_cons.mp hx with rfl | hx'
            · exact List.mem_cons_self _ _
            · exact List.mem_cons_of_mem _ (hN x hx' hxe)
          · refine List.Pairwise.cons ?_ hpw
            intro x hx
            refine ⟨fun hce _ => absurd h2.1 hce, ?_⟩
            intro _ hxe heq
            exact h2.2.2 (by rw [heq]; exact hN x hx hxe)
        · rw [if_neg h1, if_neg h2] at h
          exact dedupLoop_pairwise rest _ _ _ _ h hE hN hpw

/-- C6: the deduplicated contact list contains no two contacts with equal
non-empty case-insensitive emails, and no two email-less contacts with
equal normalized full names. -/
theorem dedup_output_has_unique_keys (cs out : List Contact)
    (h : DataCollector.deduplicate_contacts cs = .ok out) :
    out.Pairwise contactKeysDistinct :=
  dedupLoop_pairwise cs [] [] [] out h (by simp) (by simp) List.Pairwise.nil

/-- Witness for `dedup_output_has_unique_keys` on the example list. -/
theorem dedup_output_has_unique_keys_witness :
    List.Pairwise contactKeysDistinct [exContactA, exContactB] :=
  dedup_output_has_unique_keys exampleContacts [exContactA, exContactB] rfl

/-- A successful dedup run only ever appends contacts with a non-empty
email key or a non-empty name key. -/
theorem dedupLoop_key_nonempty :
    ∀ (cs : List Contact) (seenE seenN : List String) (acc out : List Contact),
    DataCollector.dedupLoop cs seenE seenN acc = .ok out →
    (∀ c ∈ acc, DataCollector.emailKeyD c ≠ "" ∨ DataCollector.nameKey c ≠ "") →
    ∀ c ∈ out, DataCollector.emailKeyD c ≠ "" ∨ DataCollector.nameKey c ≠ ""
  | [], seenE, seenN, acc, out, h, hacc => by
    simp only [DataCollector.dedupLoop, Except.ok.injEq] at h
    subst h
    intro c hc
    exact hacc c (List.mem_reverse.mp hc)
  | c :: rest, seenE, seenN, acc, out, h, hacc => by
    cases hpl : pyLower (dictGetD c.email "") with
    | error e =>
      simp [DataCollector.dedupLoop, hpl] at h
    | ok email =>
      have hek := pyLower_ok_emailKey c email hpl
      subst hek
      simp only [DataCollector.dedupLoop, hpl] at h
      by_cases h1 : DataCollector.emailKeyD c ≠ "" ∧
          DataCollector.emailKeyD c ∉ seenE
      · rw [if_pos h1] at h
        refine dedupLoop_key_nonempty rest _ _ _ _ h ?_
        intro x hx
        rcases List.mem_cons.mp hx with rfl | hx'
        · exact Or.inl h1.1
        · exact hacc x hx'
      · by_cases h2 : DataCollector.emailKeyD c = "" ∧
            DataCollector.nameKey c ≠ "" ∧ DataCollector.nameKey c ∉ seenN
        · rw [if_neg h1, if_pos h2] at h
          refine dedupLoop_key_nonempty rest _ _ _ _ h ?_
          intro x hx
          rcases List.mem_cons.mp hx with rfl | hx'
          · exact Or.inr h2.2.1
          · exact hacc x hx'
        · rw [if_neg h1, if_neg h2] at h
          exact dedupLoop_key_nonempty rest _ _ _ _ h hacc

/-- A contact whose email key evaluates to `""` and whose name key
evaluates to `""` is transparent to the dedup loop. -/
theorem dedupLoop_skip_keyless {c : Contact}
    (he : pyLower (dictGetD c.email "") = .ok "")
    (hn : DataCollector.nameKey c = "")
    (rest : List Contact) (seenE seenN : List String) (acc : List Contact) :
    DataCollector.dedupLoop (c :: rest) seenE seenN acc =
      DataCollector.dedupLoop rest seenE seenN acc := by
  simp [DataCollector.dedupLoop, he, hn]

/-- Every mock LinkedIn employee record is keyless for deduplication: its
email slot is absent (key `""`) and it has no `first_name`/`last_name`
keys, so its name key is also `""`. -/
theorem mock_employee_keyless (company : String) (i : Nat) :
    pyLower (dictGetD (mock_employee company i).email "") = .ok "" ∧
    DataCollector.nameKey (mock_employee company i) = "" :=
  ⟨rfl, rfl⟩

/-- A prefix of mock LinkedIn employees is entirely dropped by the dedup
loop. -/
theorem dedupLoop_drops_mock_employees (company : String) (hs : List Contact) :
    ∀ (idxs : List Nat) (seenE seenN : List String) (acc : List Contact),
    DataCollector.dedupLoop (idxs.map (mock_employee company) ++ hs)
      seenE seenN acc = DataCollector.dedupLoop hs seenE seenN acc
  | [], _, _, _ => by simp
  | i :: rest, seenE, seenN, acc => by
    rw [List.map_cons, List.cons_append,
      dedupLoop_skip_keyless (mock_employee_keyless company i).1
        (mock_employee_keyless company i).2,
      dedupLoop_drops_mock_employees company hs rest seenE seenN acc]

/-- C4: a contact with an empty-or-absent email and empty-or-absent
first/last names never survives deduplication; consequently, since every
scraped-profile (mock LinkedIn) employee record carries only a combined
`name`, `collect_contacts` returns exactly the deduplicated
email-discovery contacts. -/
theorem scraped_profile_contacts_dropped :
    (∀ cs out, DataCollector.deduplicate_contacts cs = .ok out →
      ∀ c ∈ out, dictGetD c.email "" = some "" →
        ¬ (dictGetD c.first_name "" = some "" ∧
           dictGetD c.last_name "" = some "")) ∧
    (∀ (env : CollectorEnv) company domain limit use_cache,
      (DataCollector.collect_contacts env company domain limit use_cache).1 =
        (DataCollector.deduplicate_contacts
          (if HunterService.is_available env.hunter then
            (HunterService.get_contacts env.hunter domain limit).1
          else [])).map (fun l => l.take limit)) := by
  constructor
  · intro cs out h c hc he hfl
    have hkey := dedupLoop_key_nonempty cs [] [] [] out h (by simp) c hc
    have he' : DataCollector.emailKeyD c = "" := by
      unfold DataCollector.emailKeyD
      rw [he]
      decide
    have hn' : DataCollector.nameKey c = "" := by
      unfold DataCollector.nameKey
      rw [hfl.1, hfl.2]
      rfl
    rcases hkey with hk | hk
    · exact hk he'
    · exact hk hn'
  · intro env company domain limit use_cache
    have key : ∀ hs : List Contact,
        DataCollector.deduplicate_contacts
            (mock_scrape_company_employees company limit ++ hs) =
          DataCollector.deduplicate_contacts hs := by
      intro hs
      unfold DataCollector.deduplicate_contacts mock_scrape_company_employees
      rw [dedupLoop_drops_mock_employees company hs (List.range (min limit mockTitles.length))]
    by_cases ha : HunterService.is_available env.hunter
    · cases hget : HunterService.get_contacts env.hunter domain limit with
      | mk hc tr =>
        simp only [DataCollector.collect_contacts, ha, hget, if_true]
        rw [key hc]
    · have key2 := key []
      rw [List.append_nil] at key2
      simp [DataCollector.collect_contacts, ha, key2]

/-- Witness for `scraped_profile_contacts_dropped`: with Hunter
unavailable, a `collect_contacts` call yields the deduplication of the
empty email-discovery list — the five mock scraped employees all vanish. -/
theorem scraped_profile_contacts_dropped_witness :
    (DataCollector.collect_contacts {} "Anthropic" "anthropic.com" 5 true).1 =
      (DataCollector.deduplicate_contacts []).map (fun l => l.take 5) := by
  have h := scraped_profile_contacts_dropped.2 {} "Anthropic" "anthropic.com" 5 true
  simpa using h
